import Mathlib

/-!
Verification of the iOS bridge facade (`ios/EcsdkExpoModule.swift`) and the
build-time config plugins of the ecsdk-expo repository, via a shallow
embedding in Lean 4.  Swift dictionaries crossing the bridge are modelled as
association lists of dynamically typed values, vendor callbacks as explicit
result parameters, and promise settlement as an explicit outcome value.
-/

namespace Ecsdk

/-- Dynamically typed value as seen through a Swift `[String: Any]` bridge
dictionary; `as? String` succeeds exactly on the `str` case. -/
inductive SwiftVal where
  | str (s : String)
  | int (n : Int)
  | boolv (b : Bool)
  | nullv
deriving DecidableEq

/-- Value of a reflective `Mirror` child as the facade inspects it:
`as? Int` succeeds exactly on the `int` case. -/
inductive MVal where
  | int (n : Int)
  | nonInt
deriving DecidableEq

/-- One child of a `Mirror`: an optional label and a value. -/
abbrev MirrorChild := Option String × MVal

/-- Model of the vendor type `EKOrganization` as the facade observes it: its
reflective mirror children and its `name` / `description` accessors. -/
structure EKOrganization where
  children : List MirrorChild
  name : String
  description : String
deriving DecidableEq

/-- Model of the vendor initializer `EKOrganization(organizationId:)`: a fresh
organization value whose single stored property holds the given identifier
under the label `organizationId`, with empty name and description. -/
def EKOrganization.ofId (organizationId : Int) : EKOrganization :=
  ⟨[(some "organizationId", MVal.int organizationId)], "", ""⟩

/-- Substring test on character lists, used to model Swift
`String.contains`. -/
def hasSubstrAux (sub : List Char) : List Char → Bool
  | [] => sub.isEmpty
  | c :: rest => List.isPrefixOf sub (c :: rest) || hasSubstrAux sub rest

/-- Swift `s.contains(sub)`: `sub` occurs as a contiguous substring of `s`. -/
def strContains (s sub : String) : Bool :=
  hasSubstrAux sub.data s.data

/-- The candidate-label test from `getOrganizationId`
(`EcsdkExpoModule.swift` lines 12-13), verbatim. -/
def candidateLabel (label : String) : Bool :=
  label == "organizationId" || label == "id" || label == "_organizationId" ||
    label == "organizationID" || label == "_id" || strContains label "organizationId"

/-- The loop body of `getOrganizationId` (lines 9-20): walk the mirror
children; on the first child with a label that passes `candidateLabel` and an
`Int`-castable value, return that value (the Swift `break`); otherwise keep
scanning; return 0 when the children are exhausted. -/
def getOrgIdAux : List MirrorChild → Int
  | [] => 0
  | child :: rest =>
    match child.1 with
    | some label =>
      if candidateLabel label then
        match child.2 with
        | MVal.int n => n
        | MVal.nonInt => getOrgIdAux rest
      else getOrgIdAux rest
    | none => getOrgIdAux rest

/-- `getOrganizationId(from:)` (lines 6-22). -/
def getOrganizationId (org : EKOrganization) : Int :=
  getOrgIdAux org.children

/-- The `[String: Any]` dictionary returned for an organization. -/
structure OrgDict where
  organizationId : Int
  name : String
  description : String
deriving DecidableEq

/-- `organizationToDict` (lines 25-31). -/
def organizationToDict (org : EKOrganization) : OrgDict :=
  ⟨getOrganizationId org, org.name, org.description⟩

/-- Settlement of an Expo promise: exactly one `resolve` value or one
`reject` with a code and a message. -/
inductive Settle (α : Type) where
  | resolve (v : α)
  | reject (code msg : String)
deriving DecidableEq

/-- Result of one bridge call: how the pending promise was settled, and
whether the vendor SDK was invoked for the call. -/
structure BridgeOutcome (α : Type) where
  settle : Settle α
  vendorInvoked : Bool
deriving DecidableEq

/-- The `["success": true]` dictionary several operations resolve with. -/
structure Ack where
  success : Bool
deriving DecidableEq

/-- Vendor-SDK singleton state observed by the facade: the stored keychain
token (`EKKeychain.getString(.token)`), the last organizations value fired on
`ELERTSKit.organizations`, and the last value fired on
`ELERTSKit.activeOrganization`. -/
structure SdkState where
  keychainToken : Option String
  organizations : Option (List EKOrganization)
  activeOrganization : Option EKOrganization
deriving DecidableEq

/-- `getActiveOrganization` (lines 238-249): resolves the dictionary of the
active organization when one has been fired, else the sentinel dictionary
with identifier 0 and empty strings. -/
def getActiveOrganization (s : SdkState) : Settle OrgDict :=
  match s.activeOrganization with
  | some activeOrg => Settle.resolve (organizationToDict activeOrg)
  | none => Settle.resolve ⟨0, "", ""⟩

/-- Model of the vendor profile type `EKUserProfile`; `otherFields` is always
passed as `nil` by the facade (lines 145-153), modelled as an always-`none`
option. -/
structure EKUserProfile where
  firstName : String
  lastName : String
  email : String
  phone : String
  otherFields : Option Unit
deriving DecidableEq

/-- Swift `profileDict[key] as? String ?? ""`: the empty string unless the
key is present with a string value. -/
def asStringOrEmpty (profileDict : List (String × SwiftVal)) (key : String) : String :=
  match profileDict.lookup key with
  | some (SwiftVal.str s) => s
  | _ => ""

/-- Optional-string lookup used to state which profile fields are present as
strings in the input dictionary. -/
def lookupStr (profileDict : List (String × SwiftVal)) (key : String) : Option String :=
  match profileDict.lookup key with
  | some (SwiftVal.str s) => some s
  | _ => none

/-- The `EKUserProfile` built by `createClient` (lines 141-154). -/
def createClientProfile (profileDict : List (String × SwiftVal)) : EKUserProfile :=
  let firstName := asStringOrEmpty profileDict "firstName"
  let lastName := asStringOrEmpty profileDict "lastName"
  let email := asStringOrEmpty profileDict "email"
  let phone := asStringOrEmpty profileDict "phone"
  ⟨firstName, lastName, email, phone, none⟩

/-- The `EKUserProfile` built by `updateClientInfo` (lines 265-278); the
Swift source duplicates the extraction code of `createClient`. -/
def updateClientInfoProfile (profileDict : List (String × SwiftVal)) : EKUserProfile :=
  let firstName := asStringOrEmpty profileDict "firstName"
  let lastName := asStringOrEmpty profileDict "lastName"
  let email := asStringOrEmpty profileDict "email"
  let phone := asStringOrEmpty profileDict "phone"
  ⟨firstName, lastName, email, phone, none⟩

/-- Result delivered by the vendor callback of `ELERTSKit.createClient`: a
client token string on success, `error.localizedDescription` on failure. -/
inductive CreateClientResult where
  | success (clientToken : String)
  | failure (msg : String)
deriving DecidableEq

/-- The completion closure of `createClient` (lines 156-163): one settlement
per callback invocation. -/
def createClientCallback : CreateClientResult → Settle String
  | CreateClientResult.success clientToken => Settle.resolve clientToken
  | CreateClientResult.failure msg =>
    Settle.reject "CREATE_CLIENT_ERROR" ("Error creating account: " ++ msg)

/-- `createClient` (lines 140-164); the vendor behaviour is a parameter
mapping the profile the facade hands over to the callback result. -/
def createClient (profileDict : List (String × SwiftVal))
    (vendor : EKUserProfile → CreateClientResult) : BridgeOutcome String :=
  ⟨createClientCallback (vendor (createClientProfile profileDict)), true⟩

/-- Result delivered by the vendor callback of `ELERTSKit.updateClientInfo`. -/
inductive UpdateResult where
  | success
  | failure (msg : String)
deriving DecidableEq

/-- The completion closure of `updateClientInfo` (lines 280-287). -/
def updateClientInfoCallback : UpdateResult → Settle Bool
  | UpdateResult.success => Settle.resolve true
  | UpdateResult.failure msg =>
    Settle.reject "UPDATE_CLIENT_ERROR" ("Error updating account: " ++ msg)

/-- `updateClientInfo` (lines 264-288). -/
def updateClientInfo (profileDict : List (String × SwiftVal))
    (vendor : EKUserProfile → UpdateResult) : BridgeOutcome Bool :=
  ⟨updateClientInfoCallback (vendor (updateClientInfoProfile profileDict)), true⟩

/-- Result delivered by the vendor callback of `ELERTSKit.joinOrganization`. -/
inductive JoinResult where
  | success
  | failure (msg : String)
deriving DecidableEq

/-- The completion closure of `joinOrganization` (lines 174-181). -/
def joinOrganizationCallback : JoinResult → Settle Ack
  | JoinResult.success => Settle.resolve ⟨true⟩
  | JoinResult.failure msg =>
    Settle.reject "JOIN_ORG_ERROR" ("Error joining org: " ++ msg)

/-- `joinOrganization` (lines 167-182): guards on the stored keychain token
before contacting the vendor SDK. -/
def joinOrganization (s : SdkState) (organizationId : Int)
    (vendor : JoinResult) : BridgeOutcome Ack :=
  match s.keychainToken with
  | none =>
    ⟨Settle.reject "JOIN_ORG_ERROR" "No client token available. Please login first.", false⟩
  | some _ => ⟨joinOrganizationCallback vendor, true⟩

/-- Result delivered by the vendor callback of the organization-list API
call: an optional set of organizations on success (the `organizations`
field of `ListResult` is optional), or a failure message. -/
inductive ListVendorResult where
  | success (organizations : Option (List EKOrganization))
  | failure (msg : String)
deriving DecidableEq

/-- The completion closure of `listOrganizations` (lines 193-214): an absent
organizations set resolves the empty array; a present set resolves its
dictionary images; a failure rejects. -/
def listOrganizationsCallback : ListVendorResult → Settle (List OrgDict)
  | ListVendorResult.success none => Settle.resolve []
  | ListVendorResult.success (some organizations) =>
    Settle.resolve (organizations.map organizationToDict)
  | ListVendorResult.failure msg =>
    Settle.reject "LIST_ORG_ERROR" ("Error listing organizations: " ++ msg)

/-- `listOrganizations` (lines 185-215): guards on the stored keychain token;
on a present vendor set it also fires `ELERTSKit.organizations`, modelled as
the state update in the second component. -/
def listOrganizations (s : SdkState) (joined : Bool)
    (vendor : ListVendorResult) : BridgeOutcome (List OrgDict) × SdkState :=
  match s.keychainToken with
  | none =>
    (⟨Settle.reject "LIST_ORG_ERROR" "No client token available. Please login first.", false⟩, s)
  | some _ =>
    (⟨listOrganizationsCallback vendor, true⟩,
      match vendor with
      | ListVendorResult.success (some organizations) =>
        { s with organizations := some organizations }
      | _ => s)

/-- The organization chosen by `setActiveOrganization` (lines 221-231): the
first cached organization whose extracted identifier equals the argument, or
a freshly constructed `EKOrganization(organizationId:)` when none matches. -/
def chosenOrganization (s : SdkState) (organizationId : Int) : EKOrganization :=
  match (match s.organizations with
         | some organizations =>
           organizations.find? (fun org => getOrganizationId org == organizationId)
         | none => none) with
  | some org => org
  | none => EKOrganization.ofId organizationId

/-- `setActiveOrganization` (lines 218-235): no token guard; fires the chosen
organization on `ELERTSKit.activeOrganization` and resolves success. -/
def setActiveOrganization (s : SdkState) (organizationId : Int) :
    BridgeOutcome Ack × SdkState :=
  (⟨Settle.resolve ⟨true⟩, true⟩,
    { s with activeOrganization := some (chosenOrganization s organizationId) })

/-- Observable outcome of a synchronous screen-presentation operation. -/
inductive ScreenOutcome where
  | noRootVC
  | alert (title message : String)
  | present (screen : String)
deriving DecidableEq

/-- `presentReportScreen` (lines 301-344): gated on an active organization
(not on the token); re-fires the resolved full organization before
presenting. `hasRootVC` models whether a root view controller exists. -/
def presentReportScreen (hasRootVC : Bool) (s : SdkState) :
    ScreenOutcome × SdkState :=
  if !hasRootVC then (ScreenOutcome.noRootVC, s)
  else
    match s.activeOrganization with
    | none =>
      (ScreenOutcome.alert "No Active Organization"
        "Please select and join an organization before reporting a problem.", s)
    | some activeOrg =>
      let fullOrg? : Option EKOrganization :=
        match s.organizations with
        | some organizations =>
          organizations.find?
            (fun org => getOrganizationId org == getOrganizationId activeOrg)
        | none => none
      let orgToUse := fullOrg?.getD activeOrg
      (ScreenOutcome.present "EKUIReportViewController",
        { s with activeOrganization := some orgToUse })

/-- `presentOrganizationScreen` (lines 347-385): gated on the stored keychain
token. -/
def presentOrganizationScreen (hasRootVC : Bool) (s : SdkState) : ScreenOutcome :=
  if !hasRootVC then ScreenOutcome.noRootVC
  else
    match s.keychainToken with
    | none =>
      ScreenOutcome.alert "Not Logged In" "Please login first before managing organizations."
    | some _ => ScreenOutcome.present "EKUIOrganizationViewController"

/-- `presentProfileScreen` (lines 388-426): gated on the stored keychain
token. -/
def presentProfileScreen (hasRootVC : Bool) (s : SdkState) : ScreenOutcome :=
  if !hasRootVC then ScreenOutcome.noRootVC
  else
    match s.keychainToken with
    | none =>
      ScreenOutcome.alert "Not Logged In" "Please login first before updating your profile."
    | some _ => ScreenOutcome.present "EKUIProfileViewController"

/-- `showMessageList` (lines 447-481): gated on the stored keychain token. -/
def showMessageList (hasRootVC : Bool) (s : SdkState) : ScreenOutcome :=
  if !hasRootVC then ScreenOutcome.noRootVC
  else
    match s.keychainToken with
    | none =>
      ScreenOutcome.alert "Not Logged In" "Please login first before viewing messages."
    | some _ => ScreenOutcome.present "EKUIThreadListViewController"

/-- Model of the caller's pending request under the host framework's promise
contract: a promise retains only the first settlement delivered to it; later
resolve/reject calls have no effect.  The list holds the settlement produced
by each firing of the vendor callback, in order. -/
def promiseOutcome {α : Type} (settleCalls : List (Settle α)) : Option (Settle α) :=
  settleCalls.head?

/-- True for the mirror children on which the Swift loop of
`getOrganizationId` stops: a labelled child whose label passes
`candidateLabel` and whose value casts to `Int`. -/
def isIntCandidate (child : MirrorChild) : Bool :=
  match child with
  | (some label, MVal.int _) => candidateLabel label
  | _ => false

/-- Integer carried by a found mirror child, 0 when nothing was found. -/
def intOfMatch : Option MirrorChild → Int
  | some (_, MVal.int n) => n
  | _ => 0

/-- Specification-side reading of identifier extraction: the integer of the
first child (in field order) matching the fixed candidate list, 0 when no
child matches. -/
def firstIntCandidate (children : List MirrorChild) : Int :=
  intOfMatch (children.find? isIntCandidate)

/-- JavaScript truthiness of an optional string parameter: `undefined`,
`null` and the empty string are falsy. -/
def truthy : Option String → Bool
  | some s => !(s == "")
  | none => false

/-- JavaScript `a || b` on optional strings: `b` when `a` is falsy. -/
def jsOr (a b : Option String) : Option String :=
  if truthy a then a else b

/-- Outcome of one config-plugin mod at native-project-generation time:
the plugin returned the config unchanged or patched (`ok`), emitted a
console warning and returned the config (`warned`), or threw an `Error`
aborting generation (`errorThrown`). -/
inductive PluginOutcome where
  | ok
  | warned
  | errorThrown (msg : String)
deriving DecidableEq

/-- `withSPMGitHubAuth` (plugin source lines 13-27): credentials come from
the plugin options or the `GPR_USER` / `GPR_API_KEY` environment variables;
when either is missing the plugin warns and returns the config, otherwise it
proceeds to write `.netrc` and returns the config (file-system effects, and
the warn-and-continue catch around them, are not failure signals and are not
modelled further). -/
def withSPMGitHubAuth (githubUsername githubToken envGprUser envGprApiKey :
    Option String) : PluginOutcome :=
  if !truthy (jsOr githubUsername envGprUser) || !truthy (jsOr githubToken envGprApiKey) then
    PluginOutcome.warned
  else PluginOutcome.ok

/-- `withAppDelegateInitialization` (plugin source lines 384-405): the API
key comes from the plugin options or `config.extra.ecsdkApiKey`; when it is
missing the plugin throws a descriptive `Error`; otherwise it patches the
AppDelegate and returns the config.  A missing product key never fails: the
injected code falls back to an Info.plist lookup. -/
def withAppDelegateInitialization (optionsApiKey extraEcsdkApiKey
    optionsProductKey extraProductKey : Option String) : PluginOutcome :=
  if !truthy (jsOr optionsApiKey extraEcsdkApiKey) then
    PluginOutcome.errorThrown
      "ECSDK Config Plugin Error: ECSDK API key is required for iOS AppDelegate initialization but not found."
  else PluginOutcome.ok

/-- `withECSDKManifest` (plugins/android/manifest.js): each of the API key
and the Google Maps key is added as manifest metadata only when provided;
a missing key is skipped silently and the mod always succeeds.  The first
component lists the metadata names actually added. -/
def withECSDKManifest (ecsdkApiKey googleMapsApiKey : Option String) :
    List String × PluginOutcome :=
  ((if truthy ecsdkApiKey then ["com.elerts.ApiKey"] else []) ++
      (if truthy googleMapsApiKey then ["com.google.android.geo.API_KEY"] else []),
    PluginOutcome.ok)

/-- `withGoogleServicesFile` (plugins/android/gradle.js lines 235-275): a
missing `googleServicesFile` option silently skips the copy; a configured
path whose source file does not exist warns and continues; a copy error is
caught and warns; the mod never throws. -/
def withGoogleServicesFile (googleServicesFile : Option String)
    (sourceFileExists : Bool) : PluginOutcome :=
  if !truthy googleServicesFile then PluginOutcome.ok
  else if !sourceFileExists then PluginOutcome.warned
  else PluginOutcome.ok

/-- The break-on-first-hit loop of `getOrganizationId` computes the integer
of the first mirror child matching the candidate list, in field order. -/
theorem getOrgIdAux_eq_firstIntCandidate (cs : List MirrorChild) :
    getOrgIdAux cs = firstIntCandidate cs := by
  induction cs with
  | nil => rfl
  | cons child rest ih =>
    obtain ⟨label?, v⟩ := child
    cases label? with
    | none =>
      simpa [getOrgIdAux, firstIntCandidate, List.find?, isIntCandidate] using ih
    | some label =>
      cases v with
      | int n =>
        by_cases h : candidateLabel label
        · simp [getOrgIdAux, firstIntCandidate, List.find?, isIntCandidate, h, intOfMatch]
        · simpa [getOrgIdAux, firstIntCandidate, List.find?, isIntCandidate, h] using ih
      | nonInt =>
        by_cases h : candidateLabel label
        · simpa [getOrgIdAux, firstIntCandidate, List.find?, isIntCandidate, h] using ih
        · simpa [getOrgIdAux, firstIntCandidate, List.find?, isIntCandidate, h] using ih

/-- Extraction applied to the modelled vendor initializer recovers the
identifier it was constructed with. -/
theorem getOrganizationId_ofId (organizationId : Int) :
    getOrganizationId (EKOrganization.ofId organizationId) = organizationId := rfl

/-- Field access with a default is lookup followed by a default. -/
theorem asStringOrEmpty_eq_getD (profileDict : List (String × SwiftVal)) (key : String) :
    asStringOrEmpty profileDict key = (lookupStr profileDict key).getD "" := by
  unfold asStringOrEmpty lookupStr
  cases profileDict.lookup key with
  | none => rfl
  | some v => cases v <;> rfl

/-- Claim C1: in every state with no active organization,
`getActiveOrganization` resolves with the structurally valid sentinel
organization dictionary (identifier 0, empty name, empty description), and in
every state it resolves with some organization dictionary, never with a
null or undefined result. -/
theorem getActiveOrganization_sentinel (s : SdkState) :
    (∃ d, getActiveOrganization s = Settle.resolve d) ∧
    (s.activeOrganization = none →
      getActiveOrganization s = Settle.resolve ⟨0, "", ""⟩) := by
  cases s with
  | mk tok orgs act =>
    cases act with
    | none => exact ⟨⟨⟨0, "", ""⟩, rfl⟩, fun _ => rfl⟩
    | some o => exact ⟨⟨organizationToDict o, rfl⟩, fun h => nomatch h⟩

/-- Witness for C1 at a concrete absent-organization state. -/
theorem getActiveOrganization_sentinel_witness :
    getActiveOrganization ⟨none, none, none⟩ = Settle.resolve ⟨0, "", ""⟩ :=
  (getActiveOrganization_sentinel ⟨none, none, none⟩).2 rfl

/-- Claim C2: with no stored session token, `joinOrganization` rejects with
code JOIN_ORG_ERROR and `listOrganizations` rejects with code
LIST_ORG_ERROR, each immediately and without invoking the vendor SDK,
whatever the arguments and whatever the vendor would have answered. -/
theorem noToken_join_list_reject (s : SdkState) (organizationId : Int)
    (joined : Bool) (vj : JoinResult) (vl : ListVendorResult)
    (h : s.keychainToken = none) :
    joinOrganization s organizationId vj =
      ⟨Settle.reject "JOIN_ORG_ERROR" "No client token available. Please login first.", false⟩ ∧
    (listOrganizations s joined vl).1 =
      ⟨Settle.reject "LIST_ORG_ERROR" "No client token available. Please login first.", false⟩ := by
  cases s with
  | mk tok orgs act =>
    change tok = none at h
    subst h
    exact ⟨rfl, rfl⟩

/-- Witness for C2 at a concrete tokenless state. -/
theorem noToken_join_list_reject_witness :
    joinOrganization ⟨none, none, none⟩ 5 JoinResult.success =
      ⟨Settle.reject "JOIN_ORG_ERROR" "No client token available. Please login first.", false⟩ ∧
    (listOrganizations ⟨none, none, none⟩ true (ListVendorResult.success none)).1 =
      ⟨Settle.reject "LIST_ORG_ERROR" "No client token available. Please login first.", false⟩ :=
  noToken_join_list_reject ⟨none, none, none⟩ 5 true JoinResult.success
    (ListVendorResult.success none) rfl

/-- Claim C3: identifier extraction walks the object's reflective fields
against the fixed candidate-label list, returns the integer of the first
field that matches a candidate and is integer-valued, and totally returns 0
(never failing) when no field matches. -/
theorem getOrganizationId_first_match (org : EKOrganization) :
    getOrganizationId org = firstIntCandidate org.children ∧
    (org.children.find? isIntCandidate = none → getOrganizationId org = 0) := by
  refine ⟨getOrgIdAux_eq_firstIntCandidate org.children, fun h => ?_⟩
  rw [getOrganizationId, getOrgIdAux_eq_firstIntCandidate, firstIntCandidate, h]
  rfl

/-- Witness for C3: an organization shape with no candidate field extracts
identifier 0. -/
theorem getOrganizationId_first_match_witness :
    getOrganizationId ⟨[(some "foo", MVal.int 9), (some "name", MVal.nonInt)], "n", "d"⟩ = 0 :=
  (getOrganizationId_first_match
    ⟨[(some "foo", MVal.int 9), (some "name", MVal.nonInt)], "n", "d"⟩).2 rfl

/-- Claim C5: with a session token present, `listOrganizations` resolves the
empty sequence when the vendor reports success with an absent or empty
organization set, and any rejection carries code LIST_ORG_ERROR and happens
only when the vendor reported a failure. -/
theorem listOrganizations_empty_ok (s : SdkState) (joined : Bool) (t : String)
    (h : s.keychainToken = some t) :
    (listOrganizations s joined (ListVendorResult.success none)).1.settle =
      Settle.resolve [] ∧
    (listOrganizations s joined (ListVendorResult.success (some []))).1.settle =
      Settle.resolve [] ∧
    ∀ vendor code msg,
      (listOrganizations s joined vendor).1.settle = Settle.reject code msg →
      ∃ emsg, vendor = ListVendorResult.failure emsg ∧ code = "LIST_ORG_ERROR" := by
  cases s with
  | mk tok orgs act =>
    change tok = some t at h
    subst h
    refine ⟨rfl, rfl, ?_⟩
    intro vendor code msg hrej
    cases vendor with
    | success o =>
      cases o with
      | none => exact nomatch hrej
      | some l => exact nomatch hrej
    | failure m =>
      have h2 : Settle.reject "LIST_ORG_ERROR" ("Error listing organizations: " ++ m) =
          Settle.reject code msg := hrej
      obtain ⟨hcode, -⟩ := Settle.reject.inj h2
      exact ⟨m, rfl, hcode.symm⟩

/-- Witness for C5 at a concrete state with a token and an absent vendor
list. -/
theorem listOrganizations_empty_ok_witness :
    (listOrganizations ⟨some "tok", none, none⟩ true (ListVendorResult.success none)).1.settle =
      Settle.resolve [] :=
  (listOrganizations_empty_ok ⟨some "tok", none, none⟩ true "tok" rfl).1

/-- Counterexample to claim C4: in a state with no session token,
`setActiveOrganization` does not reject or throw a session-required error —
it resolves with success and touches the vendor SDK singleton — and
`presentReportScreen` presents the vendor screen whenever an active
organization is set, token or not. -/
theorem setActiveOrganization_noToken_counterexample :
    (setActiveOrganization ⟨none, none, none⟩ 42).1 =
      ⟨Settle.resolve ⟨true⟩, true⟩ ∧
    (presentReportScreen true ⟨none, none, some (EKOrganization.ofId 7)⟩).1 =
      ScreenOutcome.present "EKUIReportViewController" :=
  ⟨rfl, rfl⟩

/-- Claim C4 as amended: with no stored session token (and a root view
controller present), `presentOrganizationScreen`, `presentProfileScreen` and
`showMessageList` show a blocking not-logged-in alert and do not present the
vendor screen; `setActiveOrganization` performs no session check and always
resolves with success; and `presentReportScreen` is gated on the presence of
an active organization rather than on the session token. -/
theorem noToken_screen_gating (s : SdkState) (organizationId : Int)
    (h : s.keychainToken = none) :
    presentOrganizationScreen true s =
      ScreenOutcome.alert "Not Logged In" "Please login first before managing organizations." ∧
    presentProfileScreen true s =
      ScreenOutcome.alert "Not Logged In" "Please login first before updating your profile." ∧
    showMessageList true s =
      ScreenOutcome.alert "Not Logged In" "Please login first before viewing messages." ∧
    (setActiveOrganization s organizationId).1 = ⟨Settle.resolve ⟨true⟩, true⟩ ∧
    (s.activeOrganization = none →
      (presentReportScreen true s).1 =
        ScreenOutcome.alert "No Active Organization"
          "Please select and join an organization before reporting a problem.") := by
  cases s with
  | mk tok orgs act =>
    change tok = none at h
    subst h
    refine ⟨rfl, rfl, rfl, rfl, fun ha => ?_⟩
    change act = none at ha
    subst ha
    rfl

/-- Witness for the amended C4 at a concrete tokenless state. -/
theorem noToken_screen_gating_witness :
    presentOrganizationScreen true ⟨none, none, none⟩ =
      ScreenOutcome.alert "Not Logged In" "Please login first before managing organizations." ∧
    (presentReportScreen true ⟨none, none, none⟩).1 =
      ScreenOutcome.alert "No Active Organization"
        "Please select and join an organization before reporting a problem." :=
  ⟨(noToken_screen_gating ⟨none, none, none⟩ 1 rfl).1,
    (noToken_screen_gating ⟨none, none, none⟩ 1 rfl).2.2.2.2 rfl⟩

/-- Claim C6, evaluated at the failing input: `createClient` against a
vendor double succeeding with token abc123 resolves the bare string
abc123 (not an object carrying a token field, contradicting the repo's own
`ClientTokenResponse` declaration), and against a double failing with
message duplicate email rejects with code CREATE_CLIENT_ERROR and a message
carrying the vendor text verbatim behind a fixed prefix. -/
theorem createClient_token_shape :
    createClient [("firstName", SwiftVal.str "John"), ("email", SwiftVal.str "j@x.com")]
        (fun _ => CreateClientResult.success "abc123") =
      ⟨Settle.resolve "abc123", true⟩ ∧
    createClient [("firstName", SwiftVal.str "John"), ("email", SwiftVal.str "j@x.com")]
        (fun _ => CreateClientResult.failure "duplicate email") =
      ⟨Settle.reject "CREATE_CLIENT_ERROR" "Error creating account: duplicate email", true⟩ :=
  ⟨rfl, rfl⟩

/-- Claim C7: every firing of a vendor callback produces exactly one
settlement call (the closures are total functions into single settlements),
and under the host promise contract — only the first settlement of a pending
request takes effect — an operation whose callback fires any positive number
of times is settled exactly once, by the first completion; a single
successful completion leaves nothing pending. -/
theorem async_settles_exactly_once
    (fc : List CreateClientResult) (fu : List UpdateResult)
    (fj : List JoinResult) (fl : List ListVendorResult)
    (hc : fc ≠ []) (hu : fu ≠ []) (hj : fj ≠ []) (hl : fl ≠ []) :
    (fc.map createClientCallback).length = fc.length ∧
    (fu.map updateClientInfoCallback).length = fu.length ∧
    (fj.map joinOrganizationCallback).length = fj.length ∧
    (fl.map listOrganizationsCallback).length = fl.length ∧
    promiseOutcome (fc.map createClientCallback) =
      some (createClientCallback (fc.head hc)) ∧
    promiseOutcome (fu.map updateClientInfoCallback) =
      some (updateClientInfoCallback (fu.head hu)) ∧
    promiseOutcome (fj.map joinOrganizationCallback) =
      some (joinOrganizationCallback (fj.head hj)) ∧
    promiseOutcome (fl.map listOrganizationsCallback) =
      some (listOrganizationsCallback (fl.head hl)) ∧
    ∀ t : String,
      promiseOutcome [createClientCallback (CreateClientResult.success t)] =
        some (Settle.resolve t) := by
  refine ⟨by simp, by simp, by simp, by simp, ?_, ?_, ?_, ?_, fun t => rfl⟩
  · obtain ⟨a, as, rfl⟩ := List.exists_cons_of_ne_nil hc
    rfl
  · obtain ⟨a, as, rfl⟩ := List.exists_cons_of_ne_nil hu
    rfl
  · obtain ⟨a, as, rfl⟩ := List.exists_cons_of_ne_nil hj
    rfl
  · obtain ⟨a, as, rfl⟩ := List.exists_cons_of_ne_nil hl
    rfl

/-- Witness for C7 on concrete double-fire and single-fire callback lists. -/
theorem async_settles_exactly_once_witness :
    promiseOutcome
        ([CreateClientResult.success "abc123", CreateClientResult.failure "x"].map
          createClientCallback) =
      some (Settle.resolve "abc123") := by
  have h := async_settles_exactly_once
    [CreateClientResult.success "abc123", CreateClientResult.failure "x"]
    [UpdateResult.success] [JoinResult.success] [ListVendorResult.success none]
    (List.cons_ne_nil _ _) (List.cons_ne_nil _ _) (List.cons_ne_nil _ _)
    (List.cons_ne_nil _ _)
  exact h.2.2.2.2.1

/-- Counterexample to claim C8: missing source-repository credentials make
`withSPMGitHubAuth` warn and return the config — generation completes
instead of failing — and a missing maps key or push-messaging config file
likewise completes generation without any error. -/
theorem missing_config_no_failure_counterexample :
    withSPMGitHubAuth none none none none = PluginOutcome.warned ∧
    (withECSDKManifest (some "api-key") none).1 = ["com.elerts.ApiKey"] ∧
    (withECSDKManifest (some "api-key") none).2 = PluginOutcome.ok ∧
    withGoogleServicesFile none true = PluginOutcome.ok :=
  ⟨rfl, rfl, rfl, rfl⟩

/-- Claim C8 as amended: only a missing API key makes native-project
generation fail — `withAppDelegateInitialization` throws a descriptive error
when neither the plugin option nor the config extra supplies it — while
missing source-repository credentials only produce a console warning, a
missing maps key is skipped silently, and a missing or unreadable
push-messaging config file warns or is skipped; none of those three aborts
generation. -/
theorem generation_failure_only_apiKey
    (optionsApiKey extraEcsdkApiKey optionsProductKey extraProductKey : Option String)
    (githubUsername githubToken envGprUser envGprApiKey : Option String)
    (ecsdkApiKey googleMapsApiKey googleServicesFile : Option String)
    (sourceFileExists : Bool)
    (hA : truthy (jsOr optionsApiKey extraEcsdkApiKey) = false)
    (hU : truthy (jsOr githubUsername envGprUser) = false) :
    withAppDelegateInitialization optionsApiKey extraEcsdkApiKey optionsProductKey
        extraProductKey =
      PluginOutcome.errorThrown
        "ECSDK Config Plugin Error: ECSDK API key is required for iOS AppDelegate initialization but not found." ∧
    withSPMGitHubAuth githubUsername githubToken envGprUser envGprApiKey =
      PluginOutcome.warned ∧
    (withECSDKManifest ecsdkApiKey googleMapsApiKey).2 = PluginOutcome.ok ∧
    ∀ m, withGoogleServicesFile googleServicesFile sourceFileExists ≠
      PluginOutcome.errorThrown m := by
  refine ⟨?_, ?_, rfl, ?_⟩
  · unfold withAppDelegateInitialization
    rw [hA]
    rfl
  · unfold withSPMGitHubAuth
    rw [hU]
    rfl
  · intro m hm
    by_cases hg : truthy googleServicesFile <;>
      cases sourceFileExists <;>
      simp [withGoogleServicesFile, hg] at hm

/-- Witness for the amended C8 at concrete all-absent inputs. -/
theorem generation_failure_only_apiKey_witness :
    withAppDelegateInitialization none none none none =
      PluginOutcome.errorThrown
        "ECSDK Config Plugin Error: ECSDK API key is required for iOS AppDelegate initialization but not found." ∧
    withSPMGitHubAuth none (some "token-value") none none = PluginOutcome.warned := by
  have h := generation_failure_only_apiKey none none none none none (some "token-value")
    none none none none none true rfl rfl
  exact ⟨h.1, h.2.1⟩

/-- Claim C9: in `createClient` and `updateClientInfo`, each profile field
that is absent or not a string in the input dictionary is the empty string
in the profile handed to the vendor SDK; the vendor is always invoked with
that profile, and a rejection can only originate from a vendor failure,
never from the shape of the dictionary. -/
theorem profile_fields_default_empty (profileDict : List (String × SwiftVal))
    (vendorC : EKUserProfile → CreateClientResult)
    (vendorU : EKUserProfile → UpdateResult) :
    (lookupStr profileDict "firstName" = none →
      (createClientProfile profileDict).firstName = "" ∧
      (updateClientInfoProfile profileDict).firstName = "") ∧
    (lookupStr profileDict "lastName" = none →
      (createClientProfile profileDict).lastName = "" ∧
      (updateClientInfoProfile profileDict).lastName = "") ∧
    (lookupStr profileDict "email" = none →
      (createClientProfile profileDict).email = "" ∧
      (updateClientInfoProfile profileDict).email = "") ∧
    (lookupStr profileDict "phone" = none →
      (createClientProfile profileDict).phone = "" ∧
      (updateClientInfoProfile profileDict).phone = "") ∧
    createClient profileDict vendorC =
      ⟨createClientCallback (vendorC (createClientProfile profileDict)), true⟩ ∧
    updateClientInfo profileDict vendorU =
      ⟨updateClientInfoCallback (vendorU (updateClientInfoProfile profileDict)), true⟩ ∧
    (∀ code msg, (createClient profileDict vendorC).settle = Settle.reject code msg →
      ∃ emsg, vendorC (createClientProfile profileDict) = CreateClientResult.failure emsg) ∧
    (∀ code msg, (updateClientInfo profileDict vendorU).settle = Settle.reject code msg →
      ∃ emsg, vendorU (updateClientInfoProfile profileDict) = UpdateResult.failure emsg) := by
  have hfield : ∀ k, lookupStr profileDict k = none → asStringOrEmpty profileDict k = "" := by
    intro k hk
    rw [asStringOrEmpty_eq_getD, hk]
    rfl
  refine ⟨fun hk => ⟨hfield "firstName" hk, hfield "firstName" hk⟩,
    fun hk => ⟨hfield "lastName" hk, hfield "lastName" hk⟩,
    fun hk => ⟨hfield "email" hk, hfield "email" hk⟩,
    fun hk => ⟨hfield "phone" hk, hfield "phone" hk⟩, rfl, rfl, ?_, ?_⟩
  · intro code msg hrej
    cases hv : vendorC (createClientProfile profileDict) with
    | success t =>
      have hsettle : createClientCallback (vendorC (createClientProfile profileDict)) =
          Settle.reject code msg := hrej
      rw [hv] at hsettle
      exact absurd hsettle (by simp [createClientCallback])
    | failure m => exact ⟨m, rfl⟩
  · intro code msg hrej
    cases hv : vendorU (updateClientInfoProfile profileDict) with
    | success =>
      have hsettle : updateClientInfoCallback (vendorU (updateClientInfoProfile profileDict)) =
          Settle.reject code msg := hrej
      rw [hv] at hsettle
      exact absurd hsettle (by simp [updateClientInfoCallback])
    | failure m => exact ⟨m, rfl⟩

/-- Witness for C9 on a dictionary with a non-string email and no other
fields. -/
theorem profile_fields_default_empty_witness :
    (createClientProfile [("email", SwiftVal.int 5)]).firstName = "" ∧
    (updateClientInfoProfile [("email", SwiftVal.int 5)]).email = "" := by
  have h := profile_fields_default_empty [("email", SwiftVal.int 5)]
    (fun _ => CreateClientResult.success "t") (fun _ => UpdateResult.success)
  exact ⟨(h.1 rfl).1, (h.2.2.1 rfl).2⟩

/-- Counterexample to claim C10: calling `setActiveOrganization 0` resolves
with success, yet the subsequent `getActiveOrganization` returns exactly the
zero-identifier sentinel dictionary. -/
theorem setActiveOrganization_zero_counterexample :
    (setActiveOrganization ⟨none, none, none⟩ 0).1.settle = Settle.resolve ⟨true⟩ ∧
    getActiveOrganization (setActiveOrganization ⟨none, none, none⟩ 0).2 =
      Settle.resolve ⟨0, "", ""⟩ :=
  ⟨rfl, rfl⟩

/-- Claim C10 as amended: for every nonzero organization identifier, once
`setActiveOrganization` resolves (it always resolves with success), the
active organization is set to the first cached organization whose extracted
identifier equals the argument, or to a newly constructed organization with
that identifier when no cached one matches; the chosen organization's
extracted identifier equals the argument, and the subsequent
`getActiveOrganization` does not return the zero-identifier sentinel. -/
theorem setActiveOrganization_then_get (s : SdkState) (organizationId : Int)
    (h : organizationId ≠ 0) :
    (setActiveOrganization s organizationId).1.settle = Settle.resolve ⟨true⟩ ∧
    (setActiveOrganization s organizationId).2.activeOrganization =
      some (chosenOrganization s organizationId) ∧
    ((s.organizations.getD []).find? (fun org => getOrganizationId org == organizationId) =
        some (chosenOrganization s organizationId) ∨
      chosenOrganization s organizationId = EKOrganization.ofId organizationId) ∧
    getOrganizationId (chosenOrganization s organizationId) = organizationId ∧
    getActiveOrganization (setActiveOrganization s organizationId).2 ≠
      Settle.resolve ⟨0, "", ""⟩ := by
  have key : ((s.organizations.getD []).find?
        (fun org => getOrganizationId org == organizationId) =
        some (chosenOrganization s organizationId) ∨
      chosenOrganization s organizationId = EKOrganization.ofId organizationId) ∧
      getOrganizationId (chosenOrganization s organizationId) = organizationId := by
    cases horgs : s.organizations with
    | none =>
      have hch : chosenOrganization s organizationId = EKOrganization.ofId organizationId := by
        simp only [chosenOrganization, horgs]
      exact ⟨Or.inr hch, by rw [hch]; exact getOrganizationId_ofId organizationId⟩
    | some organizations =>
      cases hfind : organizations.find? (fun org => getOrganizationId org == organizationId) with
      | none =>
        have hch : chosenOrganization s organizationId = EKOrganization.ofId organizationId := by
          simp only [chosenOrganization, horgs, hfind]
        exact ⟨Or.inr hch, by rw [hch]; exact getOrganizationId_ofId organizationId⟩
      | some org =>
        have hch : chosenOrganization s organizationId = org := by
          simp only [chosenOrganization, horgs, hfind]
        have hid : getOrganizationId org = organizationId := by
          simpa using List.find?_some hfind
        refine ⟨Or.inl ?_, by rw [hch]; exact hid⟩
        rw [Option.getD_some, hch]
        exact hfind
  refine ⟨rfl, rfl, key.1, key.2, ?_⟩
  intro hcontra
  have hget : getActiveOrganization (setActiveOrganization s organizationId).2 =
      Settle.resolve (organizationToDict (chosenOrganization s organizationId)) := rfl
  rw [hget] at hcontra
  have hdict : organizationToDict (chosenOrganization s organizationId) = ⟨0, "", ""⟩ :=
    Settle.resolve.inj hcontra
  have h0 : getOrganizationId (chosenOrganization s organizationId) = 0 :=
    congrArg OrgDict.organizationId hdict
  rw [key.2] at h0
  exact h h0

/-- Witness for the amended C10 at a concrete nonzero identifier with an
empty cache. -/
theorem setActiveOrganization_then_get_witness :
    (setActiveOrganization ⟨none, none, none⟩ 42).1.settle = Settle.resolve ⟨true⟩ ∧
    getOrganizationId (chosenOrganization ⟨none, none, none⟩ 42) = 42 := by
  have h := setActiveOrganization_then_get ⟨none, none, none⟩ 42 (by decide)
  exact ⟨h.1, h.2.2.2.1⟩

end Ecsdk
